import Mathlib

/-!
Shallow embedding of `src/class/iter.rs` of the pyo3 iterator-protocol
adapter: the `IterNextOutput` outcome model and its conversions to the
host (CPython) representation, the `Option` convenience conversion, the
slot generation for the `__iter__` / `__next__` capabilities, and the
call trampoline with receiver binding and unwind containment.

Host objects, errors and the raw-pointer return convention of the C ABI
are modelled explicitly: a call returns `Except PyErr PyObject`, where
`.ok o` stands for "non-null pointer to `o` returned, no pending error"
and `.error e` stands for "null returned with `e` set in the pending
error channel".
-/

/-- Host (Python) object values, as far as the adapter observes them:
the `None` singleton, machine integers, strings, and the one-element
tuples used as exception arguments. -/
inductive PyObject where
  | none
  | int (n : Nat)
  | str (s : String)
  | tuple1 (x : PyObject)
  deriving DecidableEq, Repr

/-- The exception kinds the adapter constructs or surfaces. -/
inductive PyExcKind where
  | stopIteration
  | borrowMutError
  | panicException
  deriving DecidableEq, Repr

/-- A host-level error: an exception kind together with the argument
object it was constructed with. -/
structure PyErr where
  kind : PyExcKind
  args : PyObject
  deriving DecidableEq, Repr

/-- `PyResult<T>` of `crate::err`. -/
abbrev PyResult (α : Type) := Except PyErr α

/-- The GIL token `Python<'py>`; it carries no data the adapter reads. -/
structure Python where
  mk ::

/-- `py.None()`: the host "no value" singleton. -/
def Python.NoneObj (_ : Python) : PyObject := PyObject.none

/-- `IntoPyPointer::into_ptr`: converting an owned host object into the
raw non-null pointer handed back through the ABI. In the model a
returned pointer is identified with the object it points to. -/
def into_ptr (o : PyObject) : PyObject := o

/-- `PyStopIteration::new_err(args)` of `crate::exceptions`: construct a
`StopIteration` exception with the given argument object. -/
def PyStopIteration.new_err (args : PyObject) : PyErr :=
  { kind := PyExcKind.stopIteration, args := args }

/-- `crate::IntoPy<PyObject>`: infallible conversion of a value into a
host object (the implementations live outside `src/`; the instances
below give the standard ones for the types the claims use). -/
class IntoPy (T : Type) where
  into_py : T → Python → PyObject

instance : IntoPy PyObject where
  into_py o _ := o

instance : IntoPy Nat where
  into_py n _ := PyObject.int n

instance : IntoPy String where
  into_py s _ := PyObject.str s

/-- `IterNextOutput<T, U>` (src/class/iter.rs lines 103-106): output of
`__next__`, either yielding the next value or returning a value to
raise `StopIteration`. -/
inductive IterNextOutput (T U : Type) where
  | Yield : T → IterNextOutput T U
  | Return : U → IterNextOutput T U
  deriving DecidableEq, Repr

/-- `PyIterNextOutput` (line 108). -/
abbrev PyIterNextOutput := IterNextOutput PyObject PyObject

/-- `IntoPyCallbackOutput<*mut ffi::PyObject> for PyIterNextOutput`
(lines 110-117): `Yield(o)` becomes the success pointer `o.into_ptr()`;
`Return(opt)` becomes the error `PyStopIteration::new_err((opt,))`. -/
def PyIterNextOutput.convert (self : PyIterNextOutput) (_py : Python) :
    PyResult PyObject :=
  match self with
  | IterNextOutput.Yield o => Except.ok (into_ptr o)
  | IterNextOutput.Return opt =>
      Except.error (PyStopIteration.new_err (PyObject.tuple1 opt))

/-- `IntoPyCallbackOutput<PyIterNextOutput> for IterNextOutput<T, U>`
(lines 119-130): variant-preserving value conversion via `into_py`. -/
def IterNextOutput.convert {T U : Type} [IntoPy T] [IntoPy U]
    (self : IterNextOutput T U) (py : Python) : PyResult PyIterNextOutput :=
  match self with
  | IterNextOutput.Yield o => Except.ok (IterNextOutput.Yield (IntoPy.into_py o py))
  | IterNextOutput.Return o => Except.ok (IterNextOutput.Return (IntoPy.into_py o py))

/-- `IntoPyCallbackOutput<PyIterNextOutput> for Option<T>`
(lines 132-142): `Some(o)` maps to `Yield(o.into_py(py))`, `None` maps
to `Return(py.None())`. -/
def Option.convert {T : Type} [IntoPy T]
    (self : Option T) (py : Python) : PyResult PyIterNextOutput :=
  match self with
  | some o => Except.ok (IterNextOutput.Yield (IntoPy.into_py o py))
  | Option.none => Except.ok (IterNextOutput.Return py.NoneObj)

/-- The full advance conversion chain the trampoline applies to a
`__next__` result: the value-level conversion (lines 119-130) followed
by the ABI-level conversion (lines 110-117). -/
def advance_to_host {T U : Type} [IntoPy T] [IntoPy U]
    (o : IterNextOutput T U) (py : Python) : PyResult PyObject :=
  Except.bind (o.convert py) (fun x => PyIterNextOutput.convert x py)

/-- The full conversion chain for an `Option`-returning `__next__`: the
`Option` conversion (lines 132-142) followed by the ABI-level
conversion (lines 110-117). -/
def option_to_host {T : Type} [IntoPy T]
    (o : Option T) (py : Python) : PyResult PyObject :=
  Except.bind (o.convert py) (fun x => PyIterNextOutput.convert x py)

/-- Modelled from the spec: the receiver binder of §4.2 and the
`PyCell` borrow bookkeeping behind `TryFromPyCell` (referenced at
src/class/iter.rs lines 64-72 but implemented outside `src/`). A cell
holds the native object together with the flag recording whether an
exclusive access window is currently open. -/
structure PyCell (S : Type) where
  value : S
  borrowFlag : Bool
  deriving DecidableEq, Repr

/-- Modelled from the spec: the binder's failure kinds (§7):
wrong runtime type, or an overlapping access window. -/
inductive BindError where
  | typeMismatch
  | alreadyBorrowed
  deriving DecidableEq, Repr

/-- Modelled from the spec: `bind(host_handle) -> Receiver | BindError`
(§4.2). Binding fails while an access window is open; on success it
opens the window and yields the native object. -/
def tryBind {S : Type} (c : PyCell S) : Except BindError (S × PyCell S) :=
  if c.borrowFlag then Except.error BindError.alreadyBorrowed
  else Except.ok (c.value, { c with borrowFlag := true })

/-- Modelled from the spec: releasing a Receiver closes the access
window (§4.2, automatic at scope end). -/
def release {S : Type} (c : PyCell S) : PyCell S :=
  { c with borrowFlag := false }

/-- Modelled from the spec: a `BindError` surfaced as a host-level
error (§4.4, "bad internal state"). -/
def bindErrorToPyErr : BindError → PyErr
  | BindError.typeMismatch =>
      { kind := PyExcKind.borrowMutError, args := PyObject.str "type mismatch" }
  | BindError.alreadyBorrowed =>
      { kind := PyExcKind.borrowMutError, args := PyObject.str "Already borrowed" }

/-- Modelled from the spec: what one run of the user's advance/begin
logic can do — succeed with an updated object state and a result,
report a host error, or trigger a native unwind (§4.4). -/
inductive UserOutcome (S R : Type) where
  | ok : S → R → UserOutcome S R
  | err : PyErr → UserOutcome S R
  | panic : String → UserOutcome S R

/-- Modelled from the spec: the fatal host error an intercepted unwind
is converted to (§4.4, §7 `BoundaryUnwind`). -/
def panicPyErr (msg : String) : PyErr :=
  { kind := PyExcKind.panicException, args := PyObject.str msg }

/-- Modelled from the spec: the call trampoline generated by
`py_unarys_func!` (src/class/iter.rs lines 81-93; the macro body lives
outside `src/`), per §4.4: bind the receiver, run the user logic,
intercept any unwind at the boundary, convert the result, and release
the access window on every exit path before returning. Returns the
ABI-shaped result together with the cell state at return. -/
def trampolineSt {S R : Type} (py : Python)
    (user : S → UserOutcome S R) (conv : R → Python → PyResult PyObject)
    (cell : PyCell S) : PyResult PyObject × PyCell S :=
  match tryBind cell with
  | Except.error e => (Except.error (bindErrorToPyErr e), cell)
  | Except.ok (s, opened) =>
      match user s with
      | UserOutcome.ok s' r => (conv r py, release { opened with value := s' })
      | UserOutcome.err e => (Except.error e, release opened)
      | UserOutcome.panic msg => (Except.error (panicPyErr msg), release opened)

/-- The two ABI slot identifiers of src/class/iter.rs:
`ffi::Py_tp_iter` and `ffi::Py_tp_iternext`. -/
inductive SlotId where
  | Py_tp_iter
  | Py_tp_iternext
  deriving DecidableEq, Repr

/-- `ffi::PyType_Slot`: a slot identifier with the generated trampoline
stored as the function pointer. -/
structure PyType_Slot (S : Type) where
  slot : SlotId
  pfunc : PyCell S → PyResult PyObject × PyCell S

/-- `PyIterSlots::get_iter` (lines 77-85): only callable with evidence
of a declared `__iter__` implementation (the `Self: PyIterIterProtocol`
bound); wraps it in a trampoline under `Py_tp_iter`. The `__iter__`
result converts to a plain host object. -/
def get_iter {S : Type} (py : Python)
    (f : S → UserOutcome S PyObject) : PyType_Slot S :=
  { slot := SlotId.Py_tp_iter
    pfunc := trampolineSt py f (fun o _ => Except.ok (into_ptr o)) }

/-- `PyIterSlots::get_iternext` (lines 86-94): only callable with
evidence of a declared `__next__` implementation (the
`Self: PyIterNextProtocol` bound); wraps it in a trampoline under
`Py_tp_iternext`, converting through the `PyIterNextOutput` chain. -/
def get_iternext {S : Type} (py : Python)
    (f : S → UserOutcome S PyIterNextOutput) : PyType_Slot S :=
  { slot := SlotId.Py_tp_iternext
    pfunc := trampolineSt py f PyIterNextOutput.convert }

/-- Modelled from the spec: a native type's capability declarations
(§3, §4.1) — each of the two capabilities is either absent or carries
its implementation (the `#[pyproto]` registration lives outside
`src/`). -/
structure Capabilities (S : Type) where
  iterImpl : Option (S → UserOutcome S PyObject)
  nextImpl : Option (S → UserOutcome S PyIterNextOutput)

/-- Modelled from the spec: the registered slot table of a native type
(§4.1, §6) — exactly the slots of the declared capabilities, generated
by `get_iter` / `get_iternext`; an undeclared capability contributes no
entry at all. -/
def slotTable {S : Type} (py : Python) (c : Capabilities S) :
    List (PyType_Slot S) :=
  (c.iterImpl.map (fun f => get_iter py f)).toList ++
    (c.nextImpl.map (fun f => get_iternext py f)).toList

/-- Modelled from the spec: the counter scenario of §8.7 — a native
type whose `__next__` returns `Option<u32>`, starting at 0,
incrementing and yielding the new count while below 5, signalling
exhaustion otherwise (the concrete test type lives under examples/,
outside `src/`). Returns the new count and the advance result. -/
def counterAdvance (count : Nat) : Nat × Option Nat :=
  if count < 5 then (count + 1, some (count + 1)) else (count, Option.none)

/-- The host-observed results of a number of successive `__next__`
calls on the counter, each run through the `Option` conversion chain of
src/class/iter.rs. -/
def counterRun (py : Python) : Nat → Nat → List (PyResult PyObject)
  | 0, _ => []
  | Nat.succ k, c =>
      option_to_host (counterAdvance c).2 py :: counterRun py k (counterAdvance c).1

/-- Modelled from the spec: §4.3 Operation A with the fallible value
conversion `ToHost(T) -> HostValue | ConversionError` of §6 (the
fallible conversion layer is consumed, not implemented, by
src/class/iter.rs, whose in-`src/` instances use the infallible
`into_py`): a failure of the contained value's conversion is surfaced
as the call's error, never as a successful outcome. -/
def convertFallible {T U : Type} (toHostT : T → PyResult PyObject)
    (toHostU : U → PyResult PyObject) :
    IterNextOutput T U → PyResult PyIterNextOutput
  | IterNextOutput.Yield o => Except.map IterNextOutput.Yield (toHostT o)
  | IterNextOutput.Return o => Except.map IterNextOutput.Return (toHostU o)

/-- Modelled from the spec: §4.3 Operation B with the fallible value
conversion of §6; the `None` payload is the host singleton and cannot
fail to convert. -/
def optionConvertFallible {T : Type} (toHostT : T → PyResult PyObject) :
    Option T → PyResult PyIterNextOutput
  | some o => Except.map IterNextOutput.Yield (toHostT o)
  | Option.none => Except.ok (IterNextOutput.Return PyObject.none)

/-- C1: for every payload `p` (including the host `None` singleton),
converting `Return(p)` to the host representation produces no success
value and instead the `StopIteration` error constructed with the
payload as its sole (1-tuple) argument. -/
theorem stop_payload_raises_stopiteration (p : PyObject) (py : Python) :
    PyIterNextOutput.convert (IterNextOutput.Return p) py =
      Except.error { kind := PyExcKind.stopIteration, args := PyObject.tuple1 p } ∧
    ∀ v, PyIterNextOutput.convert (IterNextOutput.Return p) py ≠ Except.ok v := by
  refine ⟨rfl, fun v h => ?_⟩
  simp [PyIterNextOutput.convert, PyStopIteration.new_err] at h

/-- C2: for every value `v` convertible to the host representation,
converting `Yield(v)` through the full conversion chain returns the
success pointer to `ToHost(v)` with no pending error. -/
theorem yield_converts_to_success {T U : Type} [IntoPy T] [IntoPy U]
    (v : T) (py : Python) :
    advance_to_host (IterNextOutput.Yield v : IterNextOutput T U) py =
      Except.ok (into_ptr (IntoPy.into_py v py)) := rfl

/-- C3: the `Option` convenience conversion agrees with the explicit
outcome conversion — `Some(v)` with `Yield(v)`, and `None` with
`Return(py.None())`. -/
theorem option_convert_equiv_advance {T : Type} [IntoPy T] (v : T) (py : Python) :
    option_to_host (some v) py =
      advance_to_host (IterNextOutput.Yield v : IterNextOutput T PyObject) py ∧
    option_to_host (Option.none : Option T) py =
      advance_to_host
        (IterNextOutput.Return py.NoneObj : IterNextOutput T PyObject) py :=
  ⟨rfl, rfl⟩

/-- C4: 7 successive `__next__` calls on the §8.7 counter, starting at
count 0, yield the host values 1..5 and then twice the no-value result
with `StopIteration((None,))` pending — exhaustion is idempotent. -/
theorem counter_scenario :
    counterRun Python.mk 7 0 =
      [Except.ok (PyObject.int 1), Except.ok (PyObject.int 2),
       Except.ok (PyObject.int 3), Except.ok (PyObject.int 4),
       Except.ok (PyObject.int 5),
       Except.error { kind := PyExcKind.stopIteration,
                      args := PyObject.tuple1 PyObject.none },
       Except.error { kind := PyExcKind.stopIteration,
                      args := PyObject.tuple1 PyObject.none }] := rfl

/-- C5: a native type whose capability declarations omit `__iter__` has
a registered slot table with no `Py_tp_iter` entry at all, and every
entry it does have wraps a declared implementation (never the
undeclared default). -/
theorem undeclared_capability_has_no_slot {S : Type} (py : Python)
    (c : Capabilities S) (h : c.iterImpl = Option.none) :
    (∀ s ∈ slotTable py c, s.slot ≠ SlotId.Py_tp_iter) ∧
    (∀ s ∈ slotTable py c, ∃ f, c.nextImpl = some f ∧ s = get_iternext py f) := by
  obtain ⟨it, nx⟩ := c
  simp only [Capabilities.iterImpl] at h
  subst h
  cases nx with
  | none => simp [slotTable]
  | some f =>
      constructor
      · intro s hs
        simp [slotTable] at hs
        subst hs
        simp [get_iternext]
      · intro s hs
        simp [slotTable] at hs
        exact ⟨f, rfl, hs⟩

/-- A concrete type declaring only the advance capability, used to
instantiate the undeclared-capability theorem. -/
def advanceOnlyCaps : Capabilities Nat :=
  { iterImpl := Option.none
    nextImpl := some (fun c => UserOutcome.ok c (IterNextOutput.Return PyObject.none)) }

/-- Witness for C5: the advance-only type's slot table consists of the
single `Py_tp_iternext` slot and contains no `Py_tp_iter` entry. -/
theorem undeclared_capability_has_no_slot_witness :
    (slotTable Python.mk advanceOnlyCaps).map PyType_Slot.slot =
      [SlotId.Py_tp_iternext] ∧
    ∀ s ∈ slotTable Python.mk advanceOnlyCaps, s.slot ≠ SlotId.Py_tp_iter :=
  ⟨rfl, (undeclared_capability_has_no_slot Python.mk advanceOnlyCaps rfl).1⟩

/-- C6: whenever user logic reached through the trampoline triggers a
native unwind, the trampoline intercepts it at the boundary and returns
the host fatal error (`PanicException` with the message), never a
success value; the unwind does not cross the ABI edge. -/
theorem unwind_intercepted_at_boundary {S R : Type} (py : Python)
    (user : S → UserOutcome S R) (conv : R → Python → PyResult PyObject)
    (cell : PyCell S) (msg : String)
    (hb : cell.borrowFlag = false) (hp : user cell.value = UserOutcome.panic msg) :
    (trampolineSt py user conv cell).1 = Except.error (panicPyErr msg) ∧
    ∀ v, (trampolineSt py user conv cell).1 ≠ Except.ok v := by
  have hres : (trampolineSt py user conv cell).1 = Except.error (panicPyErr msg) := by
    simp [trampolineSt, tryBind, hb, hp]
  refine ⟨hres, fun v h => ?_⟩
  rw [hres] at h
  exact Except.noConfusion h

/-- Witness for C6: a concrete panicking `__next__` on an unborrowed
cell produces the fatal host error. -/
theorem unwind_intercepted_at_boundary_witness :
    (trampolineSt Python.mk
        (fun _ : Nat => (UserOutcome.panic "boom" : UserOutcome Nat PyObject))
        (fun o _ => Except.ok o) { value := 0, borrowFlag := false }).1 =
      Except.error (panicPyErr "boom") :=
  (unwind_intercepted_at_boundary Python.mk
    (fun _ : Nat => (UserOutcome.panic "boom" : UserOutcome Nat PyObject))
    (fun o _ => Except.ok o) { value := 0, borrowFlag := false } "boom" rfl rfl).1

/-- C7: while a Receiver's access window is open, binding a second
Receiver on the same cell fails with the overlapping-window
`BindError`; after the first Receiver is released, a new bind
succeeds. -/
theorem bind_mutual_exclusion {S : Type} (c c' : PyCell S) (r : S)
    (h : tryBind c = Except.ok (r, c')) :
    tryBind c' = Except.error BindError.alreadyBorrowed ∧
    tryBind (release c') = Except.ok (c'.value, { c' with borrowFlag := true }) := by
  unfold tryBind at h
  by_cases hb : c.borrowFlag
  · simp [hb] at h
  · simp [hb] at h
    obtain ⟨h1, h2⟩ := h
    subst h2
    simp [tryBind, release]

/-- Witness for C7: binding a concrete unborrowed cell succeeds; a
second bind on the resulting cell fails, and succeeds again after
release. -/
theorem bind_mutual_exclusion_witness :
    tryBind ({ value := 0, borrowFlag := true } : PyCell Nat) =
      Except.error BindError.alreadyBorrowed ∧
    tryBind (release ({ value := 0, borrowFlag := true } : PyCell Nat)) =
      Except.ok (0, { value := 0, borrowFlag := true }) :=
  bind_mutual_exclusion { value := 0, borrowFlag := false }
    { value := 0, borrowFlag := true } 0 rfl

/-- C8: a conversion failure of the contained value or payload is
surfaced as the call's error by the outcome-to-host conversion, never
reported as a successful `Yield` or `Return`. -/
theorem conversion_failure_surfaced {T U : Type}
    (toHostT : T → PyResult PyObject) (toHostU : U → PyResult PyObject)
    (v : T) (p : U) (e e' : PyErr)
    (hv : toHostT v = Except.error e) (hp : toHostU p = Except.error e') :
    convertFallible toHostT toHostU (IterNextOutput.Yield v) = Except.error e ∧
    convertFallible toHostT toHostU (IterNextOutput.Return p) = Except.error e' ∧
    optionConvertFallible toHostT (some v) = Except.error e := by
  simp [convertFallible, optionConvertFallible, hv, hp, Except.map]

/-- Witness for C8: with a conversion that fails on a concrete value,
the failure is surfaced from both the outcome and the `Option`
conversion. -/
theorem conversion_failure_surfaced_witness :
    convertFallible (fun _ : Nat => Except.error (panicPyErr "conv"))
        (fun _ : Nat => Except.error (panicPyErr "conv"))
        (IterNextOutput.Yield 0) = Except.error (panicPyErr "conv") ∧
    optionConvertFallible (fun _ : Nat => Except.error (panicPyErr "conv"))
        (some 0) = Except.error (panicPyErr "conv") := by
  have h := conversion_failure_surfaced
    (fun _ : Nat => Except.error (panicPyErr "conv"))
    (fun _ : Nat => Except.error (panicPyErr "conv"))
    0 0 (panicPyErr "conv") (panicPyErr "conv") rfl rfl
  exact ⟨h.1, h.2.2⟩

/-- C9: the trampoline closes any access window it opened no later than
when the call returns, on every exit path (success, user error,
intercepted unwind, bind failure): the cell's borrow flag at return
equals its value at entry, so no window is ever leaked. -/
theorem receiver_released_on_every_path {S R : Type} (py : Python)
    (user : S → UserOutcome S R) (conv : R → Python → PyResult PyObject)
    (cell : PyCell S) :
    ((trampolineSt py user conv cell).2).borrowFlag = cell.borrowFlag := by
  unfold trampolineSt tryBind
  by_cases hb : cell.borrowFlag
  · simp [hb]
  · simp [hb]
    cases user cell.value <;> simp [release]

/-- C10: the value-level conversion on `IterNextOutput<T, U>` is
variant-preserving and total: `Yield` maps to `Yield` of the converted
value, `Return` to `Return` of the converted value, and the conversion
always returns a success. -/
theorem iternext_convert_variant_preserving {T U : Type} [IntoPy T] [IntoPy U]
    (py : Python) :
    (∀ v : T, IterNextOutput.convert (IterNextOutput.Yield v : IterNextOutput T U) py =
        Except.ok (IterNextOutput.Yield (IntoPy.into_py v py))) ∧
    (∀ u : U, IterNextOutput.convert (IterNextOutput.Return u : IterNextOutput T U) py =
        Except.ok (IterNextOutput.Return (IntoPy.into_py u py))) ∧
    (∀ o : IterNextOutput T U, ∃ r, IterNextOutput.convert o py = Except.ok r) := by
  refine ⟨fun v => rfl, fun u => rfl, fun o => ?_⟩
  cases o <;> exact ⟨_, rfl⟩
